import Mathlib

/-
Shallow embedding of src/brainfeatures/experiment/experiment.py.

The Python class `Experiment` orchestrates a clean -> generate-features ->
validate/evaluate pipeline.  Pure data (datasets, feature tables, labels)
is modelled with plain inductive types; the mutable instance attributes of
the object are an explicit `ExpState` record threaded through the stage
functions; Python exceptions (AssertionError, AttributeError, KeyError,
IndexError, TypeError) are modelled with `Except PyErr`.  External
collaborators that live outside the embedded file (the `validate`,
`final_evaluate` and `analyze_quality_of_predictions` capabilities from
brainfeatures.decoding / brainfeatures.analysis) are passed in as function
parameters, exactly as the source calls them through a narrow interface.
The wall-clock `times` registry of the source is not modelled (real time).
-/

/-- Python exceptions that the embedded code can raise. -/
inductive PyErr where
  | assertionError (msg : String)
  | attributeError (name : String)
  | keyError (key : String)
  | indexError
  | typeError
deriving DecidableEq, Repr

/-- A pandas-DataFrame-like table: named columns plus a matrix of values
(rows of numbers).  Feature vectors produced by the feature-generation
procedure and the auxiliary pca/importance tables are of this shape. -/
structure Table where
  columns : List String
  values : List (List Int)
deriving DecidableEq, Repr

/-- An example payload stored in a data set: either a raw/cleaned signal or
an already-tabular item (with `.columns`).  `payloadColumns` mirrors
`list(data.columns)`, which raises AttributeError on a plain signal. -/
inductive Payload where
  | sig (s : Int)
  | table (t : Table)
deriving DecidableEq, Repr

/-- Reading `.columns` of a payload (raises AttributeError on a signal). -/
def payloadColumns : Payload → Except PyErr (List String)
  | Payload.table t => Except.ok t.columns
  | Payload.sig _ => Except.error (PyErr.attributeError "columns")

/-- An entry of `self.features[split]`: `_generate_features` appends
`feature_vector.values` (a numeric matrix), while `_load_cleaned_or_features`
appends the raw item itself. -/
inductive FeatEntry where
  | vals (m : List (List Int))
  | item (p : Payload)
deriving DecidableEq, Repr

/-- Mirrors `array.shape[-1]` as used on `self.features[split][0]`:
the width of a matrix, the column count of a table, AttributeError on a
plain signal. -/
def entryShapeLast : FeatEntry → Except PyErr Nat
  | FeatEntry.vals m => Except.ok (m.headD []).length
  | FeatEntry.item (Payload.table t) => Except.ok t.columns.length
  | FeatEntry.item (Payload.sig _) => Except.error (PyErr.attributeError "shape")

/-- A data set: `__getitem__` yields (example, sfreq, label) triples and the
object exposes a mutable label collection `targets` supporting positional
deletion (`del ds.targets[i]`). -/
structure DataSet where
  items : List (Payload × Int × String)
  targets : List String
deriving DecidableEq, Repr

/-- The classifier capability, duck-typed in the source via
`hasattr(clf, "fit"/"predict"/"n_jobs")`. -/
structure Clf where
  hasFit : Bool
  hasPredict : Bool
  hasNJobsAttr : Bool
  nJobs : Int
deriving DecidableEq, Repr

/-- The scaler capability, duck-typed via
`hasattr(scaler, "fit_transform"/"transform")`. -/
structure Scaler where
  hasFitTransform : Bool
  hasTransform : Bool
deriving DecidableEq, Repr

/-- `metrics` may be a single metric function (no `__len__`) or a list of
metric functions; `_run_checks` normalizes the former into a one-element
list.  A metric is identified by name; it is only ever handed to the
external analysis capability. -/
inductive MetricsArg where
  | single (m : String)
  | many (ms : List String)
deriving DecidableEq, Repr

/-- Verbosity: a string level or a numeric logging code. -/
abbrev Verbosity := Sum String Int

/-- Keyword-parameter bundles (contents are opaque to the orchestrator). -/
abbrev Params := List (String × Int)

/-- Cleaning procedure: callable(example, sfreq) -> (cleaned, sfreq). -/
abbrev CleanProc := Payload → Int → Payload × Int

/-- Feature-generation procedure: callable(cleaned, sfreq) -> tabular
feature vector, or None on failure. -/
abbrev GenProc := Payload → Int → Option Table

/-- Feature-vector modifier: callable(data_set, features, feature_labels)
-> (features, feature_labels). -/
abbrev Modifier := Option DataSet → List FeatEntry → Option (List String) →
  List FeatEntry × List String

/-- String-keyed dictionary (function model, `none` = key absent). -/
abbrev Dict (α : Type) := String → Option α

/-- Point update of a function-modelled dictionary. -/
def fset {α : Type} (d : Dict α) (k : String) (v : α) : Dict α :=
  fun k' => if k' = k then some v else d k'

/-- Python `dict.update`: keys of `e` override keys of `d`. -/
def dmerge {α : Type} (d e : Dict α) : Dict α :=
  fun k => match e k with
    | some v => some v
    | none => d k

/-- Association-list lookup for the ordered `self._data_sets` dictionary. -/
def dlookup {α : Type} (d : List (String × α)) (k : String) : Option α :=
  match d with
  | [] => none
  | p :: d' => if p.1 = k then some p.2 else dlookup d' k

/-- Replace the value stored under an existing key of `self._data_sets`
(in the orchestrator's flow the key is always present). -/
def dset {α : Type} (d : List (String × α)) (k : String) (v : α) :
    List (String × α) :=
  d.map (fun p => if p.1 = k then (k, v) else p)

/-- One per-split entry of `self.info`: the captured sampling frequency and
the auxiliary tables merged in from validation (`"pca_components"` /
`"feature_importances"` dictionary membership is `Option.isSome`). -/
structure InfoDict where
  sfreq : Option Int := none
  pcaComponents : Option Table := none
  featureImportances : Option Table := none
deriving DecidableEq, Repr

/-- A prediction record for one role: (true label, predicted label) pairs. -/
abbrev PredRecord := List (Int × Int)

/-- A performance table computed by the analysis capability. -/
abbrev PerfTable := List (String × Int)

/-- The external cross-validation capability
`validate(X, y, clf, n_splits, shuffle, scaler, pca_thresh)`
returning (predictions-by-role, info-by-role). -/
abbrev ValidateFn := List FeatEntry → List String → Option Clf → Int → Bool →
  Option Scaler → Option Rat → Dict PredRecord × Dict InfoDict

/-- The external final-evaluation capability
`final_evaluate(X_devel, y_devel, X_eval, y_eval, clf, n_reps, scaler, pca)`. -/
abbrev EvalFn := List FeatEntry → List String → List FeatEntry → List String →
  Option Clf → Int → Option Scaler → Option Rat → Dict PredRecord × Dict InfoDict

/-- The external `analyze_quality_of_predictions(predictions, metrics)`. -/
abbrev AnalyzeFn := PredRecord → List String → PerfTable

/-- The constructor arguments of `Experiment.__init__`. -/
structure Config where
  develSet : DataSet
  clf : Option Clf
  metrics : Option MetricsArg
  evalSet : Option DataSet
  nJobs : Int
  cleaningProcedure : Option CleanProc
  cleaningParams : Option Params
  featureGenerationProcedure : Option GenProc
  featureGenerationParams : Option Params
  nSplitsOrRepetitions : Int
  shuffleSplits : Bool
  pcaThresh : Option Rat
  scaler : Option Scaler
  featureVectorModifier : Option Modifier
  verbosity : Verbosity

/-- The mutable instance state set up by `__init__` (`self._data_sets`,
`self.features`, `self.clean`, `self.info`, `self.feature_labels`,
`self.predictions`, `self.performances`). -/
structure ExpState where
  dataSets : List (String × Option DataSet)
  features : Dict (List FeatEntry)
  clean : Dict (List Payload)
  info : Dict InfoDict
  featureLabels : Option (List String)
  predictions : Dict PredRecord
  performances : Dict PerfTable

/-- The attributes `self.cleaning_procedure` and
`self.feature_generation_procedure` read by `_clean` and
`_generate_features`.  `__init__` assigns only the underscore-prefixed
`_cleaning_procedure` / `_feature_generation_procedure`, so both slots
start absent; reading an absent slot raises AttributeError. -/
structure Attrs where
  cleaning_procedure : Option CleanProc
  feature_generation_procedure : Option GenProc

/-- The attribute environment right after `__init__`: neither
`cleaning_procedure` nor `feature_generation_procedure` was ever assigned. -/
def initAttrs : Attrs :=
  { cleaning_procedure := none, feature_generation_procedure := none }

/-- Mirrors the tail of `__init__`: the per-split bookkeeping stores. -/
def initState (cfg : Config) : ExpState :=
  { dataSets := [("devel", some cfg.develSet), ("eval", cfg.evalSet)]
    features := fun k => if k = "devel" || k = "eval" then some [] else none
    clean := fun k => if k = "devel" || k = "eval" then some [] else none
    info := fun k => if k = "devel" || k = "eval" then some {} else none
    featureLabels := none
    predictions := fun _ => none
    performances := fun _ => none }

/-- Membership test for the recognized verbosity levels of `_run_checks`. -/
def verbosityOk : Verbosity → Bool
  | Sum.inl s => ["DEBUG", "INFO", "WARNING", "ERROR"].contains s
  | Sum.inr n => ([0, 10, 20, 30, 40] : List Int).contains n

/-- Python truthiness of `self._pca_thresh` (`if self._pca_thresh:`):
`None`, `0` and `0.0` are falsy. -/
def pcaTruthy : Option Rat → Bool
  | none => false
  | some q => decide (q ≠ 0)

/-- The two scaler capability assertions of `_run_checks`
(for scaling_function in ["fit_transform", "transform"]). -/
def scalerErrors : Option Scaler → List PyErr
  | none => []
  | some s =>
    (if !s.hasFitTransform then
        [PyErr.assertionError "scaler is not following scikit-learn api (fit_transform)"]
      else [])
    ++ (if !s.hasTransform then
        [PyErr.assertionError "scaler is not following scikit-learn api (transform)"]
      else [])

/-- The two classifier capability assertions of `_run_checks`
(for decoding_function in ["fit", "predict"]). -/
def clfErrors : Option Clf → List PyErr
  | none => []
  | some c =>
    (if !c.hasFit then
        [PyErr.assertionError "classifier is not following scikit-learn api (fit)"]
      else [])
    ++ (if !c.hasPredict then
        [PyErr.assertionError "classifier is not following scikit-learn api (predict)"]
      else [])

/-- The assertion chain of `_run_checks`, in source order; the failure
raised by the method is the first entry of this list.  Checks that are
guaranteed by the types of this embedding (procedures are callables,
parameter bundles are dictionaries, `__getitem__` returns a 3-tuple,
`shuffle_splits` is boolean, `n_splits`/`n_jobs` are integers,
`pca_thresh` is numeric, the modifier is callable) contribute nothing. -/
def checkErrors (cfg : Config) : List PyErr :=
  (if cfg.cleaningProcedure.isNone && cfg.featureGenerationProcedure.isNone
      && cfg.clf.isNone
    then [PyErr.assertionError "please specify what to do"] else [])
  ++ (if !verbosityOk cfg.verbosity
    then [PyErr.assertionError "unknown verbosity level"] else [])
  ++ (if cfg.develSet.items.isEmpty then [PyErr.indexError] else [])
  ++ (if !(decide (0 < cfg.nSplitsOrRepetitions))
    then [PyErr.assertionError "n_repetitions has to be an integer larger than 0"]
    else [])
  ++ (if cfg.evalSet.isNone && !(decide (2 ≤ cfg.nSplitsOrRepetitions))
    then [PyErr.assertionError "need at least two splits for cv"] else [])
  ++ (if !(decide (-1 ≤ cfg.nJobs))
    then [PyErr.assertionError "n_jobs has to be an integer larger or equal to -1"]
    else [])
  ++ scalerErrors cfg.scaler
  ++ clfErrors cfg.clf

/-- The side effects of a successful `_run_checks`: propagate `n_jobs` into
the classifier when it has such an attribute, wrap a single metric into a
list, emit the pca-on-unscaled-features warning, and pop the "eval"
bookkeeping entries when no evaluation set was supplied. -/
def applyCheckEffects (cfg : Config) (st : ExpState) :
    Config × ExpState × List String :=
  let clf2 := cfg.clf.map (fun c =>
    if c.hasNJobsAttr then { c with nJobs := cfg.nJobs } else c)
  let metrics2 : Option MetricsArg :=
    match cfg.metrics with
    | none => none
    | some (MetricsArg.single m) => some (MetricsArg.many [m])
    | some (MetricsArg.many l) => some (MetricsArg.many l)
  let warns :=
    if pcaTruthy cfg.pcaThresh && cfg.scaler.isNone then
      ["using pca on unscaled features"]
    else []
  let st2 :=
    if cfg.evalSet.isNone then
      { st with dataSets := st.dataSets.filter (fun p => p.1 ≠ "eval")
                features := fun k => if k = "eval" then none else st.features k
                clean := fun k => if k = "eval" then none else st.clean k
                info := fun k => if k = "eval" then none else st.info k }
    else st
  ({ cfg with clf := clf2, metrics := metrics2 }, st2, warns)

/-- Mirrors `Experiment._run_checks`: raise the first failing assertion, or
apply the normalizing side effects and report the logged warnings. -/
def run_checks (cfg : Config) (st : ExpState) :
    Except PyErr (Config × ExpState × List String) :=
  match checkErrors cfg with
  | e :: _ => Except.error e
  | [] => Except.ok (applyCheckEffects cfg st)

/-- True iff `_run_checks` succeeds on a freshly constructed experiment. -/
def checksPass (cfg : Config) : Bool :=
  match run_checks cfg (initState cfg) with
  | Except.ok _ => true
  | Except.error _ => false

/-- Turn an optional value into an Except, raising `e` when absent. -/
def ofOpt {α : Type} (e : PyErr) : Option α → Except PyErr α
  | some a => Except.ok a
  | none => Except.error e

/-- Error-propagating, order-preserving map over a batch of examples
(the fork-join `Parallel(...)` dispatch: output ordering follows the
input ordering regardless of completion order). -/
def mapExc {α β : Type} (f : α → Except PyErr β) : List α → Except PyErr (List β)
  | [] => Except.ok []
  | x :: xs =>
    match f x with
    | Except.error e => Except.error e
    | Except.ok y =>
      match mapExc f xs with
      | Except.error e => Except.error e
      | Except.ok ys => Except.ok (y :: ys)

/-- Error-propagating left fold (sequential post-processing loops). -/
def foldExc {α β : Type} (f : β → α → Except PyErr β) : β → List α → Except PyErr β
  | b, [] => Except.ok b
  | b, x :: xs =>
    match f b x with
    | Except.error e => Except.error e
    | Except.ok b' => foldExc f b' xs

/-- Mirrors `Experiment._clean`.  Note the source reads the attribute
`self.cleaning_procedure`, which `__init__` never assigned: eagerly on the
`partial(...)` line when `cleaning_params` is set, otherwise lazily inside
the dispatch generator, i.e. once per example. -/
def clean_stage (cfg : Config) (a : Attrs) (st : ExpState) (split : String) :
    Except PyErr (Attrs × ExpState) :=
  match
    (match cfg.cleaningParams, a.cleaning_procedure with
      | some _ps, none => Except.error (PyErr.attributeError "cleaning_procedure")
      | some _ps, some p =>
        -- self.cleaning_procedure = partial(self.cleaning_procedure, **params);
        -- the keyword bundle is opaque here, currying leaves the callable as is
        Except.ok { a with cleaning_procedure := some p }
      | none, _ => Except.ok a) with
  | Except.error e => Except.error e
  | Except.ok a =>
    match dlookup st.dataSets split with
    | none => Except.error (PyErr.keyError split)
    | some none => Except.error PyErr.typeError
    | some (some ds) =>
      match mapExc (fun it =>
          match a.cleaning_procedure with
          | none => Except.error (PyErr.attributeError "cleaning_procedure")
          | some p => Except.ok (p it.1 it.2.1)) ds.items with
      | Except.error e => Except.error e
      | Except.ok results =>
        match st.info split with
        | none => Except.error (PyErr.keyError split)
        | some infoD =>
          match st.clean split with
          | none => Except.error (PyErr.keyError split)
          | some cleanOld =>
            -- second loop: capture sfreq once, append cleaned signals in order
            let step := fun (acc : InfoDict × List Payload) (r : Payload × Int) =>
              let i1 := if acc.1.sfreq.isNone then { acc.1 with sfreq := some r.2 }
                else acc.1
              (i1, acc.2 ++ [r.1])
            let res := results.foldl step (infoD, cleanOld)
            Except.ok (a, { st with info := fset st.info split res.1,
                                    clean := fset st.clean split res.2 })

/-- Mirrors `Experiment._load_cleaned_or_features`: iterate the data set,
capture the sampling frequency once, capture `feature_labels` from the
first item's `.columns` when unset, and append each item into the clean
store or the feature store. -/
def load_cleaned_or_features (st : ExpState) (split : String)
    (cleanOrFeatures : String) : Except PyErr ExpState :=
  match dlookup st.dataSets split with
  | none => Except.error (PyErr.keyError split)
  | some none => Except.error PyErr.typeError
  | some (some ds) =>
    foldExc (fun st it =>
      match st.info split with
      | none => Except.error (PyErr.keyError split)
      | some infoD =>
        let st := if infoD.sfreq.isNone then
            { st with info := fset st.info split { infoD with sfreq := some it.2.1 } }
          else st
        match
          (match st.featureLabels with
            | none =>
              match payloadColumns it.1 with
              | Except.error e => Except.error e
              | Except.ok cols => Except.ok { st with featureLabels := some cols }
            | some _ => Except.ok st) with
        | Except.error e => Except.error e
        | Except.ok st =>
          if cleanOrFeatures = "clean" then
            match st.clean split with
            | none => Except.error (PyErr.keyError split)
            | some l => Except.ok { st with clean := fset st.clean split (l ++ [it.1]) }
          else
            -- clean_or_features = "features" in the orchestrator's flow
            match st.features split with
            | none => Except.error (PyErr.keyError split)
            | some l =>
              Except.ok { st with features := fset st.features split (l ++ [FeatEntry.item it.1]) })
      st ds.items

/-- Mirrors `del targets[i]` (IndexError when the position is gone). -/
def delAt (l : List String) (i : Nat) : Except PyErr (List String) :=
  if i < l.length then Except.ok (l.eraseIdx i) else Except.error PyErr.indexError

/-- Mirrors the post-processing loop of `_generate_features`
(`for i, feature_vector in enumerate(feature_vectors): ...`): a non-null
result seeds `feature_labels` (once) and appends its `.values`; a null
result deletes the label at the original enumeration index `i` from the
(already shifted) live label list, logging a warning. -/
def processFVLoop : List (Option Table) → Nat → Option (List String) →
    List FeatEntry → List String → List String →
    Except PyErr (Option (List String) × List FeatEntry × List String × List String)
  | [], _i, labels, feats, targets, warns => Except.ok (labels, feats, targets, warns)
  | none :: rest, i, labels, feats, targets, warns =>
    match delAt targets i with
    | Except.error e => Except.error e
    | Except.ok targets' =>
      processFVLoop rest (i + 1) labels feats targets'
        (warns ++ ["removed example " ++ toString i ++ " from labels"])
  | some fv :: rest, i, labels, feats, targets, warns =>
    let labels := match labels with
      | none => some fv.columns
      | some l => some l
    processFVLoop rest (i + 1) labels (feats ++ [FeatEntry.vals fv.values]) targets warns

/-- The post-processing loop of `_generate_features` followed by its
closing assertion `len(features[split]) == len(targets)`. -/
def generatePost (fvs : List (Option Table)) (labels0 : Option (List String))
    (feats0 : List FeatEntry) (targets0 : List String) :
    Except PyErr (Option (List String) × List FeatEntry × List String × List String) :=
  match processFVLoop fvs 0 labels0 feats0 targets0 [] with
  | Except.error e => Except.error e
  | Except.ok r =>
    if r.2.1.length ≠ r.2.2.1.length then
      Except.error (PyErr.assertionError "number of feature vectors does not match number of labels")
    else Except.ok r

/-- Mirrors `Experiment._generate_features`.  As in `_clean`, the read
attribute is the never-assigned `self.feature_generation_procedure`: eager
on the currying line when `feature_generation_params` is set, otherwise
once per cleaned signal inside the dispatch generator. -/
def generate_features (cfg : Config) (a : Attrs) (st : ExpState) (split : String) :
    Except PyErr (Attrs × ExpState) :=
  match
    (match cfg.featureGenerationParams, a.feature_generation_procedure with
      | some _ps, none => Except.error (PyErr.attributeError "feature_generation_procedure")
      | some _ps, some p => Except.ok { a with feature_generation_procedure := some p }
      | none, _ => Except.ok a) with
  | Except.error e => Except.error e
  | Except.ok a =>
    match st.clean split with
    | none => Except.error (PyErr.keyError split)
    | some cleanList =>
      match mapExc (fun x =>
          match a.feature_generation_procedure with
          | none => Except.error (PyErr.attributeError "feature_generation_procedure")
          | some p =>
            match st.info split with
            | none => Except.error (PyErr.keyError split)
            | some infoD =>
              match infoD.sfreq with
              | none => Except.error (PyErr.keyError "sfreq")
              | some sf => Except.ok (p x sf)) cleanList with
      | Except.error e => Except.error e
      | Except.ok fvs =>
        match dlookup st.dataSets split with
        | none => Except.error (PyErr.keyError split)
        | some none => Except.error (PyErr.attributeError "targets")
        | some (some ds) =>
          match st.features split with
          | none => Except.error (PyErr.keyError split)
          | some featsOld =>
            match generatePost fvs st.featureLabels featsOld ds.targets with
            | Except.error e => Except.error e
            | Except.ok r =>
              Except.ok (a,
                { st with featureLabels := r.1,
                          features := fset st.features split r.2.1,
                          dataSets := dset st.dataSets split (some { ds with targets := r.2.2.1 }) })

/-- Mirrors the auxiliary-table post-processing of `_validate`:
`info["valid"]["pca_components"].columns = self.feature_labels + ["id"]`,
else `info["valid"]["feature_importances"].columns = self.feature_labels`
(`None + [...]` would raise TypeError when the labels were never set). -/
def attachFeatureLabels (featureLabels : Option (List String)) (iv : InfoDict) :
    Except PyErr InfoDict :=
  match iv.pcaComponents with
  | some t =>
    match featureLabels with
    | none => Except.error PyErr.typeError
    | some fl => Except.ok { iv with pcaComponents := some { t with columns := fl ++ ["id"] } }
  | none =>
    match iv.featureImportances with
    | some t =>
      match featureLabels with
      | none => Except.error PyErr.typeError
      | some fl => Except.ok { iv with featureImportances := some { t with columns := fl } }
    | none => Except.ok iv

/-- Mirrors `Experiment._validate`: assert feature/label alignment, call the
external validation capability, merge its predictions, post-process the
role-"valid" auxiliary tables, merge the info. -/
def validate_stage (cfg : Config) (vf : ValidateFn) (st : ExpState) :
    Except PyErr ExpState :=
  match st.features "devel" with
  | none => Except.error (PyErr.keyError "devel")
  | some feats =>
    match dlookup st.dataSets "devel" with
    | none => Except.error (PyErr.keyError "devel")
    | some none => Except.error (PyErr.attributeError "targets")
    | some (some ds) =>
      if feats.length ≠ ds.targets.length then
        Except.error (PyErr.assertionError "number of devel examples and labels differs!")
      else
        let vr := vf feats ds.targets cfg.clf cfg.nSplitsOrRepetitions
          cfg.shuffleSplits cfg.scaler cfg.pcaThresh
        match vr.2 "valid" with
        | none => Except.error (PyErr.keyError "valid")
        | some iv =>
          match attachFeatureLabels st.featureLabels iv with
          | Except.error e => Except.error e
          | Except.ok iv2 =>
            let info2 : Dict InfoDict := fun k => if k = "valid" then some iv2 else vr.2 k
            Except.ok { st with predictions := dmerge st.predictions vr.1,
                                info := dmerge st.info info2 }

/-- Mirrors `Experiment._final_evaluate`: assert eval feature/label
alignment, call the external evaluation capability, merge results. -/
def final_evaluate_stage (cfg : Config) (ef : EvalFn) (st : ExpState) :
    Except PyErr ExpState :=
  match st.features "eval" with
  | none => Except.error (PyErr.keyError "eval")
  | some evalFeats =>
    match dlookup st.dataSets "eval" with
    | none => Except.error (PyErr.keyError "eval")
    | some none => Except.error (PyErr.attributeError "targets")
    | some (some evalDs) =>
      if evalFeats.length ≠ evalDs.targets.length then
        Except.error (PyErr.assertionError "number of eval examples and labels differs!")
      else
        match st.features "devel" with
        | none => Except.error (PyErr.keyError "devel")
        | some develFeats =>
          match dlookup st.dataSets "devel" with
          | none => Except.error (PyErr.keyError "devel")
          | some none => Except.error (PyErr.attributeError "targets")
          | some (some develDs) =>
            let er := ef develFeats develDs.targets evalFeats evalDs.targets
              cfg.clf cfg.nSplitsOrRepetitions cfg.scaler cfg.pcaThresh
            Except.ok { st with predictions := dmerge st.predictions er.1,
                                info := dmerge st.info er.2 }

/-- Mirrors `Experiment._analyze_performance`.  The loop header is
`for train_or_devel in ["train", "devel"]`, rebinding "devel" to "valid";
the `devel_or_eval` argument is only used in the opening log message. -/
def analyze_performance (aq : AnalyzeFn) (metrics : List String)
    (develOrEval : String) (st : ExpState) :
    Except PyErr (List String × ExpState) :=
  let validOrFinal := if develOrEval = "devel" then "validation" else "final evaluation"
  foldExc (fun acc role =>
      match acc.2.predictions role with
      | none => Except.error (PyErr.keyError role)
      | some pred =>
        let performancesTable := aq pred metrics
        Except.ok (acc.1 ++ ["Achieved in average on " ++ role ++ " set."],
          { acc.2 with performances := fset acc.2.performances role performancesTable }))
    (["Computing performances (" ++ validOrFinal ++ ")"], st)
    (["train", "devel"].map (fun r => if r = "devel" then "valid" else r))

/-- The feature-vector-modifier block at the top of `_run_valid_or_eval`:
replace the split's feature store and the shared feature-label list, then
assert non-emptiness and first-vector width. -/
def applyModifier (m : Modifier) (st : ExpState) (split : String) :
    Except PyErr ExpState :=
  match st.features split with
  | none => Except.error (PyErr.keyError split)
  | some feats =>
    match dlookup st.dataSets split with
    | none => Except.error (PyErr.keyError split)
    | some dsOpt =>
      let r := m dsOpt feats st.featureLabels
      let st := { st with features := fset st.features split r.1,
                          featureLabels := some r.2 }
      match r.1 with
      | [] => Except.error (PyErr.assertionError "removed all feature vectors")
      | f0 :: _ =>
        match entryShapeLast f0 with
        | Except.error e => Except.error e
        | Except.ok w =>
          if w ≠ r.2.length then
            Except.error (PyErr.assertionError "number of features and feature labels does not match")
          else Except.ok st

/-- The metric list carried by a (normalized) metrics argument. -/
def metricsOf : Option MetricsArg → List String
  | none => []
  | some (MetricsArg.single m) => [m]
  | some (MetricsArg.many l) => l

/-- Mirrors `Experiment._run_valid_or_eval`: optional modifier, then
validation (devel) or final evaluation (eval), then performance analysis
when metrics are configured. -/
def run_valid_or_eval (cfg : Config) (vf : ValidateFn) (ef : EvalFn)
    (aq : AnalyzeFn) (st : ExpState) (split : String) : Except PyErr ExpState :=
  match
    (match cfg.featureVectorModifier with
      | some m => applyModifier m st split
      | none => Except.ok st) with
  | Except.error e => Except.error e
  | Except.ok st =>
    match
      (if split = "devel" then validate_stage cfg vf st
        else final_evaluate_stage cfg ef st) with
    | Except.error e => Except.error e
    | Except.ok st =>
      if cfg.metrics.isSome then
        match analyze_performance aq (metricsOf cfg.metrics) split st with
        | Except.error e => Except.error e
        | Except.ok r => Except.ok r.2
      else Except.ok st

/-- The prediction-enabling test of `run()`:
`do_predictions = (self._clf is not None and self.features["devel"])` —
evaluated once, before any stage has run. -/
def doPredictionsFlag (cfg : Config) (st : ExpState) : Except PyErr Bool :=
  match cfg.clf with
  | none => Except.ok false
  | some _ =>
    match st.features "devel" with
    | none => Except.error (PyErr.keyError "devel")
    | some l => Except.ok !l.isEmpty

/-- The per-split loop body of `run()` (steps a-d of the orchestrator). -/
def runSplit (cfg : Config) (vf : ValidateFn) (ef : EvalFn) (aq : AnalyzeFn)
    (doClean doFeatures doPred : Bool) (acc : Attrs × ExpState) (split : String) :
    Except PyErr (Attrs × ExpState) :=
  match (if doClean then clean_stage cfg acc.1 acc.2 split else Except.ok acc) with
  | Except.error e => Except.error e
  | Except.ok acc =>
    match
      (if doFeatures then
        match (if !doClean then load_cleaned_or_features acc.2 split "clean"
          else Except.ok acc.2) with
        | Except.error e => Except.error e
        | Except.ok st => generate_features cfg acc.1 st split
      else Except.ok acc) with
    | Except.error e => Except.error e
    | Except.ok acc =>
      match
        (if !doClean && !doFeatures then
          load_cleaned_or_features acc.2 split "features"
        else Except.ok acc.2) with
      | Except.error e => Except.error e
      | Except.ok st =>
        match (if doPred then run_valid_or_eval cfg vf ef aq st split
          else Except.ok st) with
        | Except.error e => Except.error e
        | Except.ok st => Except.ok (acc.1, st)

/-- Mirrors `Experiment.run()`: run the configuration checks, decide which
stages are enabled, then process every configured split in order. -/
def run_experiment (vf : ValidateFn) (ef : EvalFn) (aq : AnalyzeFn)
    (cfg : Config) : Except PyErr ExpState :=
  match run_checks cfg (initState cfg) with
  | Except.error e => Except.error e
  | Except.ok (cfg2, st, _warns) =>
    let doClean := cfg2.cleaningProcedure.isSome
    let doFeatures := cfg2.featureGenerationProcedure.isSome
    match doPredictionsFlag cfg2 st with
    | Except.error e => Except.error e
    | Except.ok doPred =>
      match foldExc (runSplit cfg2 vf ef aq doClean doFeatures doPred)
          (initAttrs, st) (st.dataSets.map (fun p => p.1)) with
      | Except.error e => Except.error e
      | Except.ok r => Except.ok r.2

/-- Trivial external validation capability (returns empty registries);
used to instantiate runs whose interesting behavior happens earlier. -/
def vfTriv : ValidateFn := fun _ _ _ _ _ _ _ => (fun _ => none, fun _ => none)

/-- Trivial external final-evaluation capability. -/
def efTriv : EvalFn := fun _ _ _ _ _ _ _ _ => (fun _ => none, fun _ => none)

/-- Trivial external analysis capability: one row recording how many
prediction pairs the metric was applied to. -/
def aqTriv : AnalyzeFn := fun pred _ => [("count", Int.ofNat pred.length)]

/-- A well-behaved classifier (has fit, predict and an n_jobs attribute). -/
def clfOk : Clf := { hasFit := true, hasPredict := true, hasNJobsAttr := true, nJobs := 1 }

/-- A well-behaved scaler. -/
def scalerOk : Scaler := { hasFitTransform := true, hasTransform := true }

/-- A devel example: a raw signal with sampling frequency 100. -/
def develItem (i : Int) (lbl : String) : Payload × Int × String :=
  (Payload.sig i, 100, lbl)

/-- An otherwise-valid base configuration with no evaluation set: every
assertion of `_run_checks` passes on it. -/
def cfgBase : Config :=
  { develSet := { items := [develItem 0 "l0"], targets := ["l0"] }
    clf := some clfOk
    metrics := some (MetricsArg.single "accuracy_score")
    evalSet := none
    nJobs := 1
    cleaningProcedure := some (fun p s => (p, s))
    cleaningParams := none
    featureGenerationProcedure := some (fun _ _ => none)
    featureGenerationParams := none
    nSplitsOrRepetitions := 5
    shuffleSplits := false
    pcaThresh := none
    scaler := some scalerOk
    featureVectorModifier := none
    verbosity := Sum.inl "INFO" }

/-- Reduction helper: a conditional singleton error list is empty iff its
condition is false. -/
theorem if_singleton_eq_nil (b : Bool) (e : PyErr) :
    ((if b then [e] else []) = []) ↔ b = false := by
  cases b <;> simp

/-- Reduction helper: membership in a conditional singleton error list. -/
theorem mem_if_singleton (b : Bool) (e a : PyErr) :
    (a ∈ (if b then [e] else [])) ↔ (b = true ∧ a = e) := by
  cases b <;> simp

/-- `_run_checks` succeeds exactly when its assertion chain is empty. -/
theorem checksPass_iff (cfg : Config) :
    checksPass cfg = true ↔ checkErrors cfg = [] := by
  cases h : checkErrors cfg <;>
    simp [checksPass, run_checks, h]

/-- A devel set of 10 examples (raw signals with labels l0..l9). -/
def develSet10 : DataSet :=
  { items := (List.range 10).map (fun i => develItem (Int.ofNat i) ("l" ++ toString i))
    targets := (List.range 10).map (fun i => "l" ++ toString i) }

/-- Scenario A of the specification: devel set of 10 examples, cleaning
procedure, feature-generation procedure (with its default parameter
bundle) and classifier configured, no eval set, 5 splits. -/
def scnACfg : Config :=
  { cfgBase with
      develSet := develSet10
      featureGenerationProcedure :=
        some (fun _ _ => some { columns := ["f"], values := [[0]] })
      featureGenerationParams := some [] }

/-- Claim C1 (code bug evidence): on the Scenario A configuration (devel
set of 10 examples, cleaning + feature generation + classifier, no eval
set, 5 splits) a single `run()` does not populate the feature store or the
predictions/performances registries at all: it aborts with
AttributeError("cleaning_procedure") because `__init__` never assigns the
`cleaning_procedure` attribute that `_clean` reads; moreover
`do_predictions` is computed before any stage has run, while the devel
feature store is still empty, so it is `false` — even with the attribute
assigned, a single `run()` would skip validation entirely. -/
theorem run_scenario_a_aborts_without_predictions :
    run_experiment vfTriv efTriv aqTriv scnACfg =
      Except.error (PyErr.attributeError "cleaning_procedure")
    ∧ (run_checks scnACfg (initState scnACfg)).map
        (fun x => doPredictionsFlag x.1 x.2.1) = Except.ok (Except.ok false) :=
  ⟨rfl, rfl⟩

/-- A one-column feature table used as a successful generation result. -/
def fvA : Table := { columns := ["f1"], values := [[7]] }

/-- Claim C2 (code bug evidence): the label-deletion loop of
`_generate_features` deletes with the original enumeration index after
earlier deletions already shifted the label list.  With failures at
indices 0 and 2 of a 3-example batch the stage crashes with IndexError;
with failures at indices 0 and 1 the stage completes but keeps label "b"
(the label of the failed example 1) and has deleted "c" (the label of the
successful example 2), so the surviving label no longer corresponds to the
surviving feature vector. -/
theorem generate_features_label_deletion_misaligned :
    generatePost [none, some fvA, none] none [] ["a", "b", "c"] =
      Except.error PyErr.indexError
    ∧ generatePost [none, none, some fvA] none [] ["a", "b", "c"] =
      Except.ok (some ["f1"], [FeatEntry.vals [[7]]], ["b"],
        ["removed example 0 from labels", "removed example 1 from labels"]) :=
  ⟨rfl, rfl⟩

/-- A state whose predictions registry holds records for the roles
"train", "valid" and "eval" (as after devel validation followed by final
evaluation). -/
def stC9 : ExpState :=
  { dataSets := [("devel", some cfgBase.develSet), ("eval", some cfgBase.develSet)]
    features := fun _ => none
    clean := fun _ => none
    info := fun _ => none
    featureLabels := none
    predictions := fun k =>
      if k = "train" then some [(1, 1), (2, 2)]
      else if k = "valid" then some [(0, 1)]
      else if k = "eval" then some [(1, 0), (0, 0), (1, 1)] else none
    performances := fun _ => none }

/-- Claim C9 (code bug evidence): called for the eval split (final
evaluation mode, as the log line confirms), `_analyze_performance` still
applies the metrics to the "train" and "valid" prediction records and
stores performances only under those roles; the "eval" prediction record
is never analyzed and no eval performance table is produced — the
`devel_or_eval` argument only selects the log text. -/
theorem analyze_performance_ignores_eval_role :
    (analyze_performance aqTriv ["accuracy_score"] "eval" stC9).map
        (fun r => (r.1.headD "", r.2.performances "train",
          r.2.performances "valid", r.2.performances "eval")) =
      Except.ok ("Computing performances (final evaluation)",
        some [("count", 2)], some [("count", 1)], none) :=
  rfl

/-- A first generated feature table of width 2. -/
def fv1 : Table := { columns := ["a", "b"], values := [[1, 2]] }

/-- A second generated feature table of width 3. -/
def fv2 : Table := { columns := ["a", "b", "c"], values := [[1, 2, 3]] }

/-- A modifier that keeps the feature store but replaces the shared
feature-label list by ["z"]. -/
def mC3 : Modifier := fun _ feats _ => (feats, ["z"])

/-- A state with the feature-label list already set to ["a", "b"] and one
devel feature matrix of width 1. -/
def stC3 : ExpState :=
  { dataSets := [("devel", some { items := [], targets := [] })]
    features := fun k => if k = "devel" then some [FeatEntry.vals [[5]]] else none
    clean := fun _ => none
    info := fun _ => none
    featureLabels := some ["a", "b"]
    predictions := fun _ => none
    performances := fun _ => none }

/-- Claim C3 counterexample: (i) after `feature_labels` is seeded from the
first generated vector (width 2), a second vector of width 3 is appended
without any check, so a later feature vector's width differs from the
length of the feature-label list while the stage completes normally;
(ii) the feature-vector-modifier step of `_run_valid_or_eval` replaces the
already-set feature-label list (["a", "b"] becomes ["z"]), so the list is
changed by a later operation of the experiment. -/
theorem feature_labels_claim_counterexample :
    generatePost [some fv1, some fv2] none [] ["l1", "l2"] =
      Except.ok (some ["a", "b"],
        [FeatEntry.vals [[1, 2]], FeatEntry.vals [[1, 2, 3]]], ["l1", "l2"], [])
    ∧ stC3.featureLabels = some ["a", "b"]
    ∧ (applyModifier mC3 stC3 "devel").map (fun s => s.featureLabels) =
      Except.ok (some ["z"]) :=
  ⟨rfl, rfl, rfl⟩

/-- Claim C10: `__init__` assigns only `_cleaning_procedure` and
`_feature_generation_procedure`, so the attributes `cleaning_procedure`
and `feature_generation_procedure` read by `_clean` and
`_generate_features` are absent (`initAttrs`).  Whenever a stage actually
reaches a read of its procedure attribute — eagerly on the currying line
when a parameter bundle is configured, otherwise on the first dispatched
example — it raises AttributeError, before the underlying procedure is
ever applied to an example (the result does not depend on the configured
procedures at all). -/
theorem stages_read_unassigned_procedure_attributes :
    (∀ (cfg : Config) (st : ExpState) (split : String),
      (cfg.cleaningParams.isSome = true ∨
        ∃ ds, dlookup st.dataSets split = some (some ds) ∧ ds.items ≠ []) →
      clean_stage cfg initAttrs st split =
        Except.error (PyErr.attributeError "cleaning_procedure"))
    ∧ (∀ (cfg : Config) (st : ExpState) (split : String),
      (cfg.featureGenerationParams.isSome = true ∨
        ∃ l, st.clean split = some l ∧ l ≠ []) →
      generate_features cfg initAttrs st split =
        Except.error (PyErr.attributeError "feature_generation_procedure")) := by
  constructor
  · intro cfg st split h
    cases hp : cfg.cleaningParams with
    | some ps => simp [clean_stage, hp, initAttrs]
    | none =>
      rcases h with h | ⟨ds, hds, hne⟩
      · rw [hp] at h
        simp at h
      · cases hitems : ds.items with
        | nil => exact absurd hitems hne
        | cons x xs =>
          simp [clean_stage, hp, initAttrs, hds, hitems, mapExc]
  · intro cfg st split h
    cases hp : cfg.featureGenerationParams with
    | some ps => simp [generate_features, hp, initAttrs]
    | none =>
      rcases h with h | ⟨l, hl, hne⟩
      · rw [hp] at h
        simp at h
      · cases hlist : l with
        | nil => exact absurd hlist hne
        | cons x xs =>
          rw [hlist] at hl
          simp [generate_features, hp, initAttrs, hl, mapExc]

/-- A configuration with a cleaning parameter bundle (triggering the eager
attribute read on the currying line). -/
def cfgW10 : Config := { cfgBase with cleaningParams := some [] }

/-- A state whose devel clean-signal store holds one cleaned signal. -/
def stW10 : ExpState :=
  { initState cfgBase with
      clean := fun k => if k = "devel" then some [Payload.sig 0] else none }

/-- Witness for claim C10 at concrete inputs: both stages abort with the
respective AttributeError. -/
theorem stages_read_unassigned_procedure_attributes_witness :
    clean_stage cfgW10 initAttrs stW10 "devel" =
      Except.error (PyErr.attributeError "cleaning_procedure")
    ∧ generate_features cfgBase initAttrs stW10 "devel" =
      Except.error (PyErr.attributeError "feature_generation_procedure") :=
  ⟨stages_read_unassigned_procedure_attributes.1 cfgW10 stW10 "devel" (Or.inl rfl),
   stages_read_unassigned_procedure_attributes.2 cfgBase stW10 "devel"
     (Or.inr ⟨[Payload.sig 0], rfl, by decide⟩)⟩

/-- Claim C4: when the classifier, the cleaning procedure and the
feature-generation procedure are all absent, `run()` aborts with the very
first assertion of `_run_checks` ("please specify what to do") — the
validation failure happens before any stage runs. -/
theorem no_operation_requested_fails_checks (cfg : Config)
    (vf : ValidateFn) (ef : EvalFn) (aq : AnalyzeFn)
    (h1 : cfg.cleaningProcedure = none)
    (h2 : cfg.featureGenerationProcedure = none)
    (h3 : cfg.clf = none) :
    run_experiment vf ef aq cfg =
      Except.error (PyErr.assertionError "please specify what to do") := by
  simp [run_experiment, run_checks, checkErrors, h1, h2, h3]

/-- A configuration requesting no operation at all. -/
def cfgNothing : Config :=
  { cfgBase with clf := none, cleaningProcedure := none,
                 featureGenerationProcedure := none }

/-- Witness for claim C4 at a concrete configuration. -/
theorem no_operation_requested_fails_checks_witness :
    run_experiment vfTriv efTriv aqTriv cfgNothing =
      Except.error (PyErr.assertionError "please specify what to do") :=
  no_operation_requested_fails_checks cfgNothing vfTriv efTriv aqTriv rfl rfl rfl

/-- Characterization of a passing `_run_checks` assertion chain in terms of
the individual checked conditions. -/
theorem checkErrors_eq_nil_iff (cfg : Config) :
    checkErrors cfg = [] ↔
      ((cfg.cleaningProcedure = none → cfg.featureGenerationProcedure = none →
          ¬cfg.clf = none)
        ∧ verbosityOk cfg.verbosity = true
        ∧ ¬cfg.develSet.items = []
        ∧ 0 < cfg.nSplitsOrRepetitions
        ∧ (cfg.evalSet = none → 2 ≤ cfg.nSplitsOrRepetitions)
        ∧ -1 ≤ cfg.nJobs
        ∧ scalerErrors cfg.scaler = []
        ∧ clfErrors cfg.clf = []) := by
  simp [checkErrors, List.append_eq_nil, if_singleton_eq_nil]

/-- Claim C5: for a configuration with no evaluation set, `_run_checks`
rejects every split/repetition count below 2 (whatever else the
configuration looks like), and for an otherwise-valid configuration
(one that passes all checks at the baseline count 2) it accepts every
integer count greater than or equal to 2. -/
theorem cv_split_count_validation (cfg : Config) (n : Int)
    (heval : cfg.evalSet = none) :
    (n < 2 → checksPass { cfg with nSplitsOrRepetitions := n } = false)
    ∧ (checksPass { cfg with nSplitsOrRepetitions := 2 } = true → 2 ≤ n →
      checksPass { cfg with nSplitsOrRepetitions := n } = true) := by
  constructor
  · intro hn
    cases hcp : checksPass { cfg with nSplitsOrRepetitions := n } with
    | false => rfl
    | true =>
      exfalso
      rw [checksPass_iff, checkErrors_eq_nil_iff] at hcp
      have h4 := hcp.2.2.2.1
      have h5 := hcp.2.2.2.2.1 heval
      dsimp only at h4 h5
      omega
  · intro hbase hn
    rw [checksPass_iff, checkErrors_eq_nil_iff] at hbase ⊢
    obtain ⟨a1, a2, a3, _a4, _a5, a6, a7, a8⟩ := hbase
    dsimp only at _a4 ⊢
    exact ⟨a1, a2, a3, by omega, fun _ => by omega, a6, a7, a8⟩

/-- The invalid-parallelism assertion error of `_run_checks`. -/
def njobsErr : PyErr :=
  PyErr.assertionError "n_jobs has to be an integer larger or equal to -1"

/-- Any member of the scaler error segment is one of the two scaler
assertion errors. -/
theorem mem_scalerErrors (a : PyErr) (s : Option Scaler) (h : a ∈ scalerErrors s) :
    a = PyErr.assertionError "scaler is not following scikit-learn api (fit_transform)" ∨
    a = PyErr.assertionError "scaler is not following scikit-learn api (transform)" := by
  cases s with
  | none => simp [scalerErrors] at h
  | some s =>
    simp only [scalerErrors, List.mem_append, mem_if_singleton] at h
    tauto

/-- Any member of the classifier error segment is one of the two
classifier assertion errors. -/
theorem mem_clfErrors (a : PyErr) (c : Option Clf) (h : a ∈ clfErrors c) :
    a = PyErr.assertionError "classifier is not following scikit-learn api (fit)" ∨
    a = PyErr.assertionError "classifier is not following scikit-learn api (predict)" := by
  cases c with
  | none => simp [clfErrors] at h
  | some c =>
    simp only [clfErrors, List.mem_append, mem_if_singleton] at h
    tauto

/-- The invalid-parallelism error appears in the assertion chain exactly
when `n_jobs` is an integer below -1. -/
theorem njobsErr_mem_iff (cfg : Config) :
    njobsErr ∈ checkErrors cfg ↔ cfg.nJobs < -1 := by
  constructor
  · intro h
    simp only [checkErrors, List.mem_append, mem_if_singleton] at h
    rcases h with ((((((⟨_, he⟩ | ⟨_, he⟩) | ⟨_, he⟩) | ⟨_, he⟩) | ⟨_, he⟩) |
        ⟨hc, _⟩) | hs) | hcl
    · exact absurd he (by decide)
    · exact absurd he (by decide)
    · exact absurd he (by decide)
    · exact absurd he (by decide)
    · exact absurd he (by decide)
    · simp at hc
      omega
    · rcases mem_scalerErrors _ _ hs with h | h <;> exact absurd h (by decide)
    · rcases mem_clfErrors _ _ hcl with h | h <;> exact absurd h (by decide)
  · intro h
    simp only [checkErrors, List.mem_append, mem_if_singleton]
    have : (!decide (-1 ≤ cfg.nJobs)) = true := by
      simp
      omega
    tauto

/-- Claim C6: whenever the job-parallelism count is an integer below -1,
the invalid-parallelism assertion fails (so configuration validation
fails, and on an otherwise-valid configuration `_run_checks` raises
exactly this error); the parallelism check itself contributes no error for
-1 and for every integer greater than or equal to 1. -/
theorem n_jobs_validation (cfg : Config) (j : Int) :
    (j < -1 → njobsErr ∈ checkErrors { cfg with nJobs := j }
      ∧ checksPass { cfg with nJobs := j } = false)
    ∧ ((j = -1 ∨ 1 ≤ j) → njobsErr ∉ checkErrors { cfg with nJobs := j })
    ∧ (checksPass { cfg with nJobs := -1 } = true → j < -1 →
      run_checks { cfg with nJobs := j } (initState { cfg with nJobs := j }) =
        Except.error njobsErr) := by
  refine ⟨?_, ?_, ?_⟩
  · intro hj
    have hmem : njobsErr ∈ checkErrors { cfg with nJobs := j } :=
      (njobsErr_mem_iff _).mpr (by dsimp only; omega)
    refine ⟨hmem, ?_⟩
    cases hcp : checksPass { cfg with nJobs := j } with
    | false => rfl
    | true =>
      exfalso
      rw [checksPass_iff] at hcp
      rw [hcp] at hmem
      simp at hmem
  · intro hj hmem
    have h := (njobsErr_mem_iff _).mp hmem
    dsimp only at h
    omega
  · intro hbase hj
    rw [checksPass_iff, checkErrors_eq_nil_iff] at hbase
    obtain ⟨a1, a2, a3, a4, a5, a6, a7, a8⟩ := hbase
    dsimp only at a1 a2 a3 a4 a5 a6 a7 a8
    have c1 : (cfg.cleaningProcedure.isNone && cfg.featureGenerationProcedure.isNone
        && cfg.clf.isNone) = false := by
      by_contra hb
      rw [Bool.not_eq_false] at hb
      simp only [Bool.and_eq_true, Option.isNone_iff_eq_none] at hb
      exact a1 hb.1.1 hb.1.2 hb.2
    have c2 : (!verbosityOk cfg.verbosity) = false := by simp [a2]
    have c3 : cfg.develSet.items.isEmpty = false := by
      cases h : cfg.develSet.items with
      | nil => exact absurd h a3
      | cons x xs => simp
    have c4 : (!decide (0 < cfg.nSplitsOrRepetitions)) = false := by
      simp
      omega
    have c5 : (cfg.evalSet.isNone && !decide (2 ≤ cfg.nSplitsOrRepetitions)) = false := by
      rcases he : cfg.evalSet with _ | es
      · have := a5 he
        simp [he]
        omega
      · simp [he]
    have c6 : (!decide (-1 ≤ j)) = true := by
      simp
      omega
    have hce : checkErrors { cfg with nJobs := j } = [njobsErr] := by
      dsimp only [checkErrors]
      rw [c1, c2, c3, c4, c5, c6, a7, a8]
      simp [njobsErr]
    simp [run_checks, hce]

/-- An otherwise-valid configuration with `pca_thresh` set to zero and no
scaler. -/
def cfgPca0 : Config := { cfgBase with pcaThresh := some 0, scaler := none }

/-- Claim C7 counterexample: with the PCA threshold set to the numeric
value 0 and no scaler supplied, `_run_checks` succeeds but logs no warning
at all — `if self._pca_thresh:` is a truthiness test, so a zero threshold
skips the pca block (including the warning) entirely, contradicting the
claim that every configuration with a set PCA threshold and no scaler gets
the warning. -/
theorem pca_zero_threshold_no_warning :
    checksPass cfgPca0 = true
    ∧ (run_checks cfgPca0 (initState cfgPca0)).map (fun x => x.2.2) =
      Except.ok [] :=
  ⟨rfl, rfl⟩

/-- Claim C7 as amended: for every otherwise-valid configuration whose
PCA threshold is set to a nonzero (truthy) value and whose scaler is
absent, `_run_checks` succeeds (the run proceeds) and the warning
"using pca on unscaled features" is logged. -/
theorem pca_without_scaler_warns (cfg : Config) (q : Rat)
    (hp : cfg.pcaThresh = some q) (hq : q ≠ 0) (hs : cfg.scaler = none)
    (hok : checkErrors cfg = []) :
    (run_checks cfg (initState cfg)).map (fun x => x.2.2) =
      Except.ok ["using pca on unscaled features"] := by
  simp [run_checks, hok, applyCheckEffects, pcaTruthy, hp, hq, hs, Except.map]

/-- An otherwise-valid configuration with a nonzero PCA threshold and no
scaler. -/
def cfgPcaHalf : Config := { cfgBase with pcaThresh := some (1/2), scaler := none }

/-- Witness for claim C7 (amended) at a concrete configuration. -/
theorem pca_without_scaler_warns_witness :
    (run_checks cfgPcaHalf (initState cfgPcaHalf)).map (fun x => x.2.2) =
      Except.ok ["using pca on unscaled features"] :=
  pca_without_scaler_warns cfgPcaHalf (1/2) rfl (by norm_num) rfl rfl

/-- Once `feature_labels` is set, the post-processing loop of
`_generate_features` never changes it. -/
theorem processFVLoop_labels_stable :
    ∀ (fvs : List (Option Table)) (i : Nat) (L : List String)
      (feats : List FeatEntry) (targets warns : List String)
      (out : Option (List String) × List FeatEntry × List String × List String),
      processFVLoop fvs i (some L) feats targets warns = Except.ok out →
      out.1 = some L := by
  intro fvs
  induction fvs with
  | nil =>
    intro i L feats targets warns out h
    simp [processFVLoop] at h
    rw [← h]
  | cons hd rest ih =>
    intro i L feats targets warns out h
    cases hd with
    | none =>
      rw [processFVLoop] at h
      cases hdel : delAt targets i with
      | error e => rw [hdel] at h; exact absurd h (by simp)
      | ok t' => rw [hdel] at h; exact ih _ _ _ _ _ _ h
    | some fv => exact ih _ _ _ _ _ _ h

/-- The column labels of the first successful result of a
feature-generation batch, if any. -/
def firstSuccessCols : List (Option Table) → Option (List String)
  | [] => none
  | none :: rest => firstSuccessCols rest
  | some fv :: _ => some fv.columns

/-- Claim C3 as amended: within the generation stage the feature-name
list is write-once — if it is already set it is never changed by the
post-processing loop, and if it is unset it ends up as the column labels
of the first successfully produced feature vector (and stays unset when
every result failed).  The stage does not constrain the widths of later
feature vectors, and a configured feature-vector modifier may replace the
list afterwards (see the counterexample). -/
theorem feature_labels_set_once_by_generation :
    (∀ (fvs : List (Option Table)) (i : Nat) (L : List String)
      (feats : List FeatEntry) (targets warns : List String)
      (out : Option (List String) × List FeatEntry × List String × List String),
      processFVLoop fvs i (some L) feats targets warns = Except.ok out →
      out.1 = some L)
    ∧ (∀ (fvs : List (Option Table)) (i : Nat)
      (feats : List FeatEntry) (targets warns : List String)
      (out : Option (List String) × List FeatEntry × List String × List String),
      processFVLoop fvs i none feats targets warns = Except.ok out →
      out.1 = firstSuccessCols fvs) := by
  refine ⟨processFVLoop_labels_stable, ?_⟩
  intro fvs
  induction fvs with
  | nil =>
    intro i feats targets warns out h
    simp [processFVLoop] at h
    rw [← h, firstSuccessCols]
  | cons hd rest ih =>
    intro i feats targets warns out h
    cases hd with
    | none =>
      rw [processFVLoop] at h
      cases hdel : delAt targets i with
      | error e => rw [hdel] at h; exact absurd h (by simp)
      | ok t' =>
        rw [hdel] at h
        rw [ih _ _ _ _ _ h, firstSuccessCols]
    | some fv =>
      rw [processFVLoop_labels_stable rest (i + 1) fv.columns _ _ _ _ h,
        firstSuccessCols]

/-- Claim C8: after `_validate` runs (with the external validation
capability returning predictions `vres` and auxiliary info `info`), if the
role-"valid" info contains a PCA-components table then that table's column
labels are set to the shared feature-name list followed by one extra "id"
column; otherwise, if it contains a feature-importances table, that
table's column labels are set to exactly the shared feature-name list. -/
theorem validate_attaches_feature_labels (cfg : Config) (st : ExpState)
    (L : List String) (feats : List FeatEntry) (ds : DataSet)
    (vres : Dict PredRecord) (info : Dict InfoDict) (iv : InfoDict) (t : Table)
    (hL : st.featureLabels = some L)
    (hf : st.features "devel" = some feats)
    (hd : dlookup st.dataSets "devel" = some (some ds))
    (hlen : feats.length = ds.targets.length)
    (hiv : info "valid" = some iv) :
    (iv.pcaComponents = some t →
      (validate_stage cfg (fun _ _ _ _ _ _ _ => (vres, info)) st).map
          (fun s => s.info "valid") =
        Except.ok (some
          { iv with pcaComponents := some ({ t with columns := L ++ ["id"] }) }))
    ∧ (iv.pcaComponents = none → iv.featureImportances = some t →
      (validate_stage cfg (fun _ _ _ _ _ _ _ => (vres, info)) st).map
          (fun s => s.info "valid") =
        Except.ok (some
          { iv with featureImportances := some ({ t with columns := L }) })) := by
  constructor
  · intro hpca
    simp [validate_stage, hf, hd, hlen, hiv, attachFeatureLabels, hpca, hL,
      dmerge, Except.map]
  · intro hpca himp
    simp [validate_stage, hf, hd, hlen, hiv, attachFeatureLabels, hpca, himp,
      hL, dmerge, Except.map]

/-- Witness for claim C5 at concrete inputs: count 1 is rejected, count 7
is accepted on the otherwise-valid base configuration. -/
theorem cv_split_count_validation_witness :
    checksPass { cfgBase with nSplitsOrRepetitions := 1 } = false
    ∧ checksPass { cfgBase with nSplitsOrRepetitions := 7 } = true :=
  ⟨(cv_split_count_validation cfgBase 1 rfl).1 (by decide),
   (cv_split_count_validation cfgBase 7 rfl).2 (by decide) (by decide)⟩

/-- Witness for claim C6 at concrete inputs: -2 puts the
invalid-parallelism error in the chain and fails validation (and on the
otherwise-valid base configuration it is the raised error), while 4
contributes no such error. -/
theorem n_jobs_validation_witness :
    njobsErr ∈ checkErrors { cfgBase with nJobs := -2 }
    ∧ checksPass { cfgBase with nJobs := -2 } = false
    ∧ njobsErr ∉ checkErrors { cfgBase with nJobs := 4 }
    ∧ run_checks { cfgBase with nJobs := -2 }
        (initState { cfgBase with nJobs := -2 }) = Except.error njobsErr :=
  ⟨((n_jobs_validation cfgBase (-2)).1 (by decide)).1,
   ((n_jobs_validation cfgBase (-2)).1 (by decide)).2,
   (n_jobs_validation cfgBase 4).2.1 (Or.inr (by decide)),
   (n_jobs_validation cfgBase (-2)).2.2 (by decide) (by decide)⟩

/-- Witness for claim C3 (amended) at a concrete batch: with one failure
followed by one success the loop result seeds the labels from the first
successful vector's columns, as `firstSuccessCols` predicts. -/
theorem feature_labels_set_once_by_generation_witness :
    processFVLoop [none, some fv1] 0 none [] ["x", "y"] [] =
      Except.ok (some ["a", "b"], [FeatEntry.vals [[1, 2]]], ["y"],
        ["removed example 0 from labels"])
    ∧ (some ["a", "b"] : Option (List String)) = firstSuccessCols [none, some fv1] :=
  ⟨rfl,
   feature_labels_set_once_by_generation.2 [none, some fv1] 0 [] ["x", "y"] []
     (some ["a", "b"], [FeatEntry.vals [[1, 2]]], ["y"],
       ["removed example 0 from labels"]) rfl⟩

/-- A pca-components table as returned by the validation capability. -/
def tC8 : Table := { columns := ["old"], values := [[3]] }

/-- A role-"valid" info entry containing a pca-components table. -/
def ivC8 : InfoDict :=
  { sfreq := none, pcaComponents := some tC8, featureImportances := none }

/-- Info-by-role as returned by the validation capability. -/
def infoC8 : Dict InfoDict := fun k => if k = "valid" then some ivC8 else none

/-- An empty devel data set for the C8 witness. -/
def dsC8 : DataSet := { items := [], targets := [] }

/-- A state with the feature-name list set, ready for validation. -/
def stC8 : ExpState :=
  { dataSets := [("devel", some dsC8)]
    features := fun k => if k = "devel" then some [] else none
    clean := fun _ => none
    info := fun _ => none
    featureLabels := some ["a", "b"]
    predictions := fun _ => none
    performances := fun _ => none }

/-- Witness for claim C8 at concrete inputs: the pca-components table ends
up with columns ["a", "b", "id"]. -/
theorem validate_attaches_feature_labels_witness :
    (validate_stage cfgBase (fun _ _ _ _ _ _ _ => (fun _ => none, infoC8)) stC8).map
        (fun s => s.info "valid") =
      Except.ok (some
        { ivC8 with pcaComponents := some ({ tC8 with columns := ["a", "b"] ++ ["id"] }) }) :=
  (validate_attaches_feature_labels cfgBase stC8 ["a", "b"] [] dsC8
    (fun _ => none) infoC8 ivC8 tC8 rfl rfl rfl rfl rfl).1 rfl
